import Mathlib

/-!
Verification of the UPF sync-algorithm bridge and routing-table manager
(`src/netstack/docker/upf-extension/`): a shallow embedding of
`sync_algorithm_bridge.c` and `routing_table_manager.c` over their shared
header `sync_algorithm_interface.h`, followed by theorems about the
embedded operations.

Modelling conventions:
- C strings (`const char *`) are `Option String` (`none` is the NULL
  pointer).  A fixed `char[64]` identifier buffer filled by `strncpy(dst,
  src, 63)` plus a forced terminator stores the first 63 characters.
- `uint32_t` / `uint64_t` counters are `Nat` reduced modulo `2 ^ 32` /
  `2 ^ 64` at each increment.
- `double` values are pass-through in this code (only printed, never
  computed with); they are modelled as `Rat`.  `time_t` timestamps are
  modelled as an `Int` argument `now` supplied where the C calls
  `time(NULL)`.
- The global mutable state behind the bridge (`g_initialized`,
  `g_status`) is threaded explicitly as a `BridgeState`; each C entry
  point becomes a function from its arguments and the pre-state to the
  result code and post-state.  Output pointers become returned values,
  with a `Bool` argument recording whether the caller passed a non-NULL
  pointer.  `printf` side effects are dropped.  `malloc` in the routing
  table is modelled as always succeeding.
-/

set_option linter.unusedVariables false

namespace NtnStack

/-- The `sync_result_t` error-code enumeration of
`sync_algorithm_interface.h`. -/
inductive SyncResult where
  | success
  | errorInvalidParam
  | errorUeNotFound
  | errorSatelliteNotFound
  | errorHandoverInProgress
  | errorRoutingUpdateFailed
  | errorMemoryAllocation
  | errorTimeout
deriving DecidableEq, Repr

/-- The integer value each `sync_result_t` enumerator carries in the C
header (`SYNC_SUCCESS = 0`, `SYNC_ERROR_INVALID_PARAM = -1`, ...,
`SYNC_ERROR_TIMEOUT = -7`). -/
def SyncResult.code : SyncResult → Int
  | .success => 0
  | .errorInvalidParam => -1
  | .errorUeNotFound => -2
  | .errorSatelliteNotFound => -3
  | .errorHandoverInProgress => -4
  | .errorRoutingUpdateFailed => -5
  | .errorMemoryAllocation => -6
  | .errorTimeout => -7

/-- `ue_context_t` of `sync_algorithm_interface.h`. -/
structure ue_context_t where
  ue_id : String
  current_satellite_id : String
  target_satellite_id : String
  ipv4_addr : Nat
  predicted_handover_time : Rat
  handover_in_progress : Bool
  access_strategy : Nat
deriving DecidableEq, Repr

/-- `handover_event_t` of `sync_algorithm_interface.h`. -/
structure handover_event_t where
  ue_id : String
  source_satellite : String
  target_satellite : String
  trigger_time : Rat
  completion_time : Rat
  result : SyncResult
  error_message : String
deriving DecidableEq, Repr

/-- `sync_algorithm_status_t` of `sync_algorithm_interface.h`.
`total_ue_count` and `active_handover_count` are `uint32_t`;
`total_handover_count` and `successful_handover_count` are `uint64_t`. -/
structure sync_algorithm_status_t where
  algorithm_running : Bool
  total_ue_count : Nat
  active_handover_count : Nat
  last_update_time : Int
  total_handover_count : Nat
  successful_handover_count : Nat
  average_handover_latency : Rat
deriving DecidableEq, Repr

/-- The value `memset(&g_status, 0, sizeof(g_status))` produces. -/
def zeroStatus : sync_algorithm_status_t :=
  { algorithm_running := false
    total_ue_count := 0
    active_handover_count := 0
    last_update_time := 0
    total_handover_count := 0
    successful_handover_count := 0
    average_handover_latency := 0 }

/-- The mutable globals of `sync_algorithm_bridge.c`: `g_initialized` and
`g_status` (the mutex only serializes access and carries no state). -/
structure BridgeState where
  g_initialized : Bool
  g_status : sync_algorithm_status_t
deriving DecidableEq, Repr

/-- The process-start values of the globals:
`static bool g_initialized = false;` and
`static sync_algorithm_status_t g_status = {0};`. -/
def bootState : BridgeState :=
  { g_initialized := false, g_status := zeroStatus }

/-- `sync_algorithm_init`: if already initialized return `SYNC_SUCCESS`
unchanged; otherwise zero the status, set `last_update_time` to the
current time, mark initialized, and return `SYNC_SUCCESS`. -/
def sync_algorithm_init (now : Int) (s : BridgeState) :
    SyncResult × BridgeState :=
  if s.g_initialized then
    (.success, s)
  else
    (.success,
      { g_initialized := true
        g_status :=
          { zeroStatus with
              algorithm_running := false
              last_update_time := now } })

/-- `sync_algorithm_cleanup`: clear `g_initialized` and the running flag;
all other status fields keep their values. -/
def sync_algorithm_cleanup (s : BridgeState) : BridgeState :=
  { s with
      g_initialized := false
      g_status := { s.g_status with algorithm_running := false } }

/-- `sync_algorithm_register_ue`: fails with `SYNC_ERROR_INVALID_PARAM`
when the context pointer is NULL or the module is not initialized;
otherwise increments `total_ue_count` (a `uint32_t`). -/
def sync_algorithm_register_ue (ue_context : Option ue_context_t)
    (s : BridgeState) : SyncResult × BridgeState :=
  if ue_context.isNone || !s.g_initialized then
    (.errorInvalidParam, s)
  else
    (.success,
      { s with
          g_status :=
            { s.g_status with
                total_ue_count := (s.g_status.total_ue_count + 1) % 2 ^ 32 } })

/-- `sync_algorithm_unregister_ue`: fails with `SYNC_ERROR_INVALID_PARAM`
when the id pointer is NULL or the module is not initialized; otherwise
decrements `total_ue_count` only when it is positive. -/
def sync_algorithm_unregister_ue (ue_id : Option String)
    (s : BridgeState) : SyncResult × BridgeState :=
  if ue_id.isNone || !s.g_initialized then
    (.errorInvalidParam, s)
  else
    (.success,
      { s with
          g_status :=
            { s.g_status with
                total_ue_count :=
                  if s.g_status.total_ue_count > 0 then
                    s.g_status.total_ue_count - 1
                  else
                    s.g_status.total_ue_count } })

/-- `sync_algorithm_trigger_handover`: fails with
`SYNC_ERROR_INVALID_PARAM` when either string pointer is NULL or the
module is not initialized; otherwise increments both `uint64_t` handover
counters and stamps `last_update_time`.  The subscriber id is never
looked up and `predicted_time` is only printed. -/
def sync_algorithm_trigger_handover (ue_id target_satellite_id : Option String)
    (predicted_time : Rat) (now : Int) (s : BridgeState) :
    SyncResult × BridgeState :=
  if ue_id.isNone || target_satellite_id.isNone || !s.g_initialized then
    (.errorInvalidParam, s)
  else
    (.success,
      { s with
          g_status :=
            { s.g_status with
                total_handover_count :=
                  (s.g_status.total_handover_count + 1) % 2 ^ 64
                successful_handover_count :=
                  (s.g_status.successful_handover_count + 1) % 2 ^ 64
                last_update_time := now } })

/-- `sync_algorithm_get_status`: fails with `SYNC_ERROR_INVALID_PARAM`
when the output pointer is NULL or the module is not initialized;
otherwise copies the status to the caller.  `status_ptr` records whether
the caller passed a non-NULL pointer; the copied-out value is the
returned `Option`. -/
def sync_algorithm_get_status (status_ptr : Bool) (s : BridgeState) :
    SyncResult × Option sync_algorithm_status_t :=
  if !status_ptr || !s.g_initialized then
    (.errorInvalidParam, none)
  else
    (.success, some s.g_status)

/-- `sync_algorithm_update_ue_position`: fails with
`SYNC_ERROR_INVALID_PARAM` when the id pointer is NULL or the module is
not initialized; otherwise only prints and changes no state. -/
def sync_algorithm_update_ue_position (ue_id : Option String)
    (latitude longitude altitude : Rat) (s : BridgeState) :
    SyncResult × BridgeState :=
  if ue_id.isNone || !s.g_initialized then
    (.errorInvalidParam, s)
  else
    (.success, s)

/-- `sync_algorithm_start_periodic_update`: fails with
`SYNC_ERROR_INVALID_PARAM` when not initialized; otherwise sets
`algorithm_running`. -/
def sync_algorithm_start_periodic_update (s : BridgeState) :
    SyncResult × BridgeState :=
  if !s.g_initialized then
    (.errorInvalidParam, s)
  else
    (.success,
      { s with g_status := { s.g_status with algorithm_running := true } })

/-- `sync_algorithm_stop_periodic_update`: fails with
`SYNC_ERROR_INVALID_PARAM` when not initialized; otherwise clears
`algorithm_running`. -/
def sync_algorithm_stop_periodic_update (s : BridgeState) :
    SyncResult × BridgeState :=
  if !s.g_initialized then
    (.errorInvalidParam, s)
  else
    (.success,
      { s with g_status := { s.g_status with algorithm_running := false } })

/-- `sync_algorithm_set_parameters`: only prints its arguments and
returns `SYNC_SUCCESS`; no validation, no stored parameters, no state
change. -/
def sync_algorithm_set_parameters (delta_t binary_search_precision : Rat)
    (s : BridgeState) : SyncResult × BridgeState :=
  (.success, s)

/-- `sync_algorithm_get_recent_handover_events`: writes `0` through
`actual_count` when that pointer is non-NULL, writes no events, and
returns `SYNC_SUCCESS` (it does not even check `g_initialized`).  The
returned `Option Nat` is the value written through `actual_count` and
the returned list is the (always empty) sequence of events written into
the caller's array. -/
def sync_algorithm_get_recent_handover_events (max_events : Nat)
    (actual_count_ptr : Bool) (s : BridgeState) :
    SyncResult × Option Nat × List handover_event_t :=
  (.success, (if actual_count_ptr then some 0 else none), [])

/-! ## Routing table (`routing_table_manager.c`) -/

/-- `routing_entry_t` of `routing_table_manager.c` (without the
intrusive `next` pointer: the linked list headed by `g_routing_table` is
the surrounding `List`, with the list head being the most recently
prepended entry). -/
structure routing_entry_t where
  ue_id : String
  gnb_ip : Nat
  gnb_port : Nat
  last_update : Int
deriving DecidableEq, Repr

/-- The effect of `strncpy(entry->ue_id, ue_id, sizeof(entry->ue_id) - 1)`
followed by `entry->ue_id[63] = 0` on a `char[64]` buffer: the stored
identifier is the first 63 characters of the source string. -/
def strncpyUeId (ue_id : String) : String :=
  String.mk (ue_id.data.take 63)

/-- The scan loop of `update_routing_entry`: walk the list and, at the
first entry whose stored `ue_id` compares `strcmp`-equal to the argument,
overwrite `gnb_ip`, `gnb_port` and `last_update`; `none` when no entry
matches. -/
def updateScan (ue_id : String) (gnb_ip gnb_port : Nat) (now : Int) :
    List routing_entry_t → Option (List routing_entry_t)
  | [] => none
  | entry :: rest =>
    if entry.ue_id = ue_id then
      some ({ entry with gnb_ip := gnb_ip, gnb_port := gnb_port,
                         last_update := now } :: rest)
    else
      match updateScan ue_id gnb_ip gnb_port now rest with
      | some rest2 => some (entry :: rest2)
      | none => none

/-- `update_routing_entry`: NULL id fails with
`SYNC_ERROR_INVALID_PARAM`; otherwise the first `strcmp`-matching entry
is overwritten in place, and when none matches a fresh entry whose
stored id is the `strncpy`-truncated argument is prepended at the list
head (`malloc` modelled as succeeding). -/
def update_routing_entry (ue_id : Option String) (gnb_ip gnb_port : Nat)
    (now : Int) (table : List routing_entry_t) :
    SyncResult × List routing_entry_t :=
  match ue_id with
  | none => (.errorInvalidParam, table)
  | some id =>
    match updateScan id gnb_ip gnb_port now table with
    | some table2 => (.success, table2)
    | none =>
      (.success,
        { ue_id := strncpyUeId id, gnb_ip := gnb_ip, gnb_port := gnb_port,
          last_update := now } :: table)

/-- `cleanup_routing_table`: frees every entry and resets the head. -/
def cleanup_routing_table (table : List routing_entry_t) :
    List routing_entry_t :=
  []

/-- The stored subscriber identifiers of a table, in list order. -/
def tableKeys (t : List routing_entry_t) : List String :=
  t.map (fun e => e.ue_id)

/-- Number of entries of the table whose stored identifier is `id`. -/
def ueKeyCount (id : String) (t : List routing_entry_t) : Nat :=
  (tableKeys t).count id

/-- One recorded `update_routing_entry` call with a non-NULL identifier. -/
structure UpsertCall where
  ue_id : String
  gnb_ip : Nat
  gnb_port : Nat
  now : Int
deriving DecidableEq, Repr

/-- Run a sequence of non-NULL upsert calls left to right. -/
def applyUpserts (calls : List UpsertCall) (t : List routing_entry_t) :
    List routing_entry_t :=
  calls.foldl
    (fun t c => (update_routing_entry (some c.ue_id) c.gnb_ip c.gnb_port c.now t).2)
    t

/-! ## Register/unregister traces (for the subscriber-count claims) -/

/-- One bridge lifecycle call that touches `total_ue_count`. -/
inductive RegOp where
  | reg (ue_context : Option ue_context_t)
  | unreg (ue_id : Option String)
deriving DecidableEq, Repr

/-- The state transition of a single `RegOp`. -/
def regStep (s : BridgeState) (op : RegOp) : BridgeState :=
  match op with
  | .reg c => (sync_algorithm_register_ue c s).2
  | .unreg i => (sync_algorithm_unregister_ue i s).2

/-- Run a sequence of register/unregister calls left to right. -/
def runRegOps (ops : List RegOp) (s : BridgeState) : BridgeState :=
  ops.foldl regStep s

/-- Number of register calls of the trace carrying a non-NULL context:
on an initialized engine these are exactly the calls that return
`SYNC_SUCCESS`. -/
def numSuccRegs (ops : List RegOp) : Nat :=
  (ops.filter (fun op =>
    match op with
    | .reg (some _) => true
    | _ => false)).length

/-- Number of unregister calls of the trace carrying a non-NULL id: on an
initialized engine these are exactly the calls that return
`SYNC_SUCCESS`. -/
def numSuccUnregs (ops : List RegOp) : Nat :=
  (ops.filter (fun op =>
    match op with
    | .unreg (some _) => true
    | _ => false)).length

/-- Every successful unregister call of the trace happens while
`total_ue_count` is positive (so its floored decrement really
decrements). -/
def noUnderflow : List RegOp → BridgeState → Bool
  | [], _ => true
  | op :: rest, s =>
    (match op with
     | .unreg (some _) => decide (0 < s.g_status.total_ue_count)
     | _ => true) && noUnderflow rest (regStep s op)

/-- The fixed test subscriber context of the verification scenarios:
subscriber `ue-1` currently served by satellite `sat-A`. -/
def ue1 : ue_context_t :=
  { ue_id := "ue-1"
    current_satellite_id := "sat-A"
    target_satellite_id := ""
    ipv4_addr := 0
    predicted_handover_time := 0
    handover_in_progress := false
    access_strategy := 0 }

/-! ## Helper lemmas about the routing table -/

/-- An identifier that fits the `char[64]` buffer (at most 63 characters)
is stored verbatim by `strncpy`. -/
theorem strncpyUeId_of_short (id : String) (h : id.length ≤ 63) :
    strncpyUeId id = id := by
  unfold strncpyUeId
  rw [List.take_of_length_le h]

/-- The stored identifier never exceeds 63 characters. -/
theorem strncpyUeId_length_le (id : String) :
    (strncpyUeId id).length ≤ 63 := by
  unfold strncpyUeId
  show (id.data.take 63).length ≤ 63
  rw [List.length_take]
  exact Nat.min_le_left _ _

/-- The scan loop finds no entry exactly when no stored identifier equals
the argument. -/
theorem updateScan_none_iff (id : String) (ip port : Nat) (now : Int)
    (t : List routing_entry_t) :
    updateScan id ip port now t = none ↔ ∀ e ∈ t, e.ue_id ≠ id := by
  induction t with
  | nil => simp [updateScan]
  | cons entry rest ih =>
    by_cases h : entry.ue_id = id
    · simp [updateScan, h]
    · cases hscan : updateScan id ip port now rest with
      | none =>
        simp only [updateScan, if_neg h, hscan, List.forall_mem_cons]
        exact iff_of_true trivial ⟨h, ih.mp hscan⟩
      | some rest2 =>
        simp only [updateScan, if_neg h, hscan, List.forall_mem_cons]
        apply iff_of_false
        · exact fun hc => Option.noConfusion hc
        · rintro ⟨h1, h2⟩
          rw [ih.mpr h2] at hscan
          exact Option.noConfusion hscan

/-- In-place overwrite by the scan loop does not change the sequence of
stored identifiers. -/
theorem updateScan_some_keys (id : String) (ip port : Nat) (now : Int) :
    ∀ (t t2 : List routing_entry_t),
      updateScan id ip port now t = some t2 → tableKeys t2 = tableKeys t := by
  intro t
  induction t with
  | nil => intro t2 h; simp [updateScan] at h
  | cons entry rest ih =>
    intro t2 h
    by_cases he : entry.ue_id = id
    · simp only [updateScan, if_pos he] at h
      cases h
      simp [tableKeys]
    · simp only [updateScan, if_neg he] at h
      cases hscan : updateScan id ip port now rest with
      | none => rw [hscan] at h; cases h
      | some rest2 =>
        rw [hscan] at h
        cases h
        simp only [tableKeys, List.map_cons]
        have := ih rest2 hscan
        simp only [tableKeys] at this
        rw [this]

/-- In-place overwrite by the scan loop leaves every entry whose stored
identifier differs from the argument untouched (with its position). -/
theorem updateScan_some_filter (id : String) (ip port : Nat) (now : Int) :
    ∀ (t t2 : List routing_entry_t),
      updateScan id ip port now t = some t2 →
      t2.filter (fun e => e.ue_id ≠ id) = t.filter (fun e => e.ue_id ≠ id) := by
  intro t
  induction t with
  | nil => intro t2 h; simp [updateScan] at h
  | cons entry rest ih =>
    intro t2 h
    by_cases he : entry.ue_id = id
    · simp only [updateScan, if_pos he] at h
      cases h
      simp [List.filter_cons, he]
    · simp only [updateScan, if_neg he] at h
      cases hscan : updateScan id ip port now rest with
      | none => rw [hscan] at h; cases h
      | some rest2 =>
        rw [hscan] at h
        cases h
        simp only [List.filter_cons]
        rw [ih rest2 hscan]

/-- Membership in the stored identifiers after one upsert with a
non-truncated identifier: exactly the old identifiers plus `id`. -/
theorem tableKeys_upsert_mem (id : String) (h : id.length ≤ 63)
    (ip port : Nat) (now : Int) (t : List routing_entry_t) (k : String) :
    k ∈ tableKeys (update_routing_entry (some id) ip port now t).2 ↔
      k = id ∨ k ∈ tableKeys t := by
  cases hscan : updateScan id ip port now t with
  | some t2 =>
    unfold update_routing_entry
    simp only [hscan]
    rw [updateScan_some_keys id ip port now t t2 hscan]
    have hid : id ∈ tableKeys t := by
      by_contra hid
      have hall : ∀ e ∈ t, e.ue_id ≠ id := by
        intro e he heq
        exact hid (by simp only [tableKeys, List.mem_map]; exact ⟨e, he, heq⟩)
      rw [(updateScan_none_iff id ip port now t).mpr hall] at hscan
      exact Option.noConfusion hscan
    constructor
    · exact fun hk => Or.inr hk
    · rintro (rfl | hk)
      · exact hid
      · exact hk
  | none =>
    unfold update_routing_entry
    simp only [hscan]
    simp [tableKeys, strncpyUeId_of_short id h]

/-- One upsert with a non-truncated identifier preserves distinctness of
the stored identifiers. -/
theorem tableKeys_upsert_nodup (id : String) (h : id.length ≤ 63)
    (ip port : Nat) (now : Int) (t : List routing_entry_t)
    (hnd : (tableKeys t).Nodup) :
    (tableKeys (update_routing_entry (some id) ip port now t).2).Nodup := by
  cases hscan : updateScan id ip port now t with
  | some t2 =>
    unfold update_routing_entry
    simp only [hscan]
    rw [updateScan_some_keys id ip port now t t2 hscan]
    exact hnd
  | none =>
    have hnot : ∀ e ∈ t, e.ue_id ≠ id :=
      (updateScan_none_iff id ip port now t).mp hscan
    have hmem : id ∉ tableKeys t := by
      simp only [tableKeys, List.mem_map]
      rintro ⟨e, he, heq⟩
      exact hnot e he heq
    unfold update_routing_entry
    simp only [hscan]
    simp only [tableKeys, List.map_cons, strncpyUeId_of_short id h]
    exact List.nodup_cons.mpr ⟨hmem, hnd⟩

/-- Membership in the stored identifiers after a whole sequence of
upserts whose identifiers all fit the buffer: the old identifiers plus
the call identifiers. -/
theorem applyUpserts_keys_mem (calls : List UpsertCall)
    (h : ∀ c ∈ calls, c.ue_id.length ≤ 63) :
    ∀ (t : List routing_entry_t) (k : String),
      k ∈ tableKeys (applyUpserts calls t) ↔
        k ∈ calls.map (fun c => c.ue_id) ∨ k ∈ tableKeys t := by
  induction calls with
  | nil => intro t k; simp [applyUpserts]
  | cons c rest ih =>
    intro t k
    have hstep :
        applyUpserts (c :: rest) t =
          applyUpserts rest
            (update_routing_entry (some c.ue_id) c.gnb_ip c.gnb_port c.now t).2 :=
      rfl
    rw [hstep, ih (fun d hd => h d (List.mem_cons_of_mem c hd)),
      tableKeys_upsert_mem c.ue_id (h c (List.mem_cons_self c rest)) c.gnb_ip
        c.gnb_port c.now t k]
    simp only [List.map_cons, List.mem_cons]
    tauto

/-- A whole sequence of upserts whose identifiers all fit the buffer
keeps the stored identifiers distinct. -/
theorem applyUpserts_keys_nodup (calls : List UpsertCall)
    (h : ∀ c ∈ calls, c.ue_id.length ≤ 63) :
    ∀ t : List routing_entry_t, (tableKeys t).Nodup →
      (tableKeys (applyUpserts calls t)).Nodup := by
  induction calls with
  | nil => intro t hnd; simpa [applyUpserts] using hnd
  | cons c rest ih =>
    intro t hnd
    exact ih (fun d hd => h d (List.mem_cons_of_mem c hd)) _
      (tableKeys_upsert_nodup c.ue_id (h c (List.mem_cons_self c rest)) c.gnb_ip
        c.gnb_port c.now t hnd)

/-! ## Helper lemmas about register/unregister traces -/

/-- Neither register nor unregister ever touches `g_initialized`. -/
theorem regStep_g_initialized (s : BridgeState) (op : RegOp) :
    (regStep s op).g_initialized = s.g_initialized := by
  cases op with
  | reg c =>
    cases c with
    | none => simp [regStep, sync_algorithm_register_ue]
    | some ctx =>
      by_cases h : s.g_initialized <;>
        simp [regStep, sync_algorithm_register_ue, h]
  | unreg i =>
    cases i with
    | none => simp [regStep, sync_algorithm_unregister_ue]
    | some id =>
      by_cases h : s.g_initialized <;>
        simp [regStep, sync_algorithm_unregister_ue, h]

/-- A register call with a NULL context pointer changes nothing. -/
theorem regStep_reg_none (s : BridgeState) : regStep s (.reg none) = s := by
  simp [regStep, sync_algorithm_register_ue]

/-- An unregister call with a NULL id pointer changes nothing. -/
theorem regStep_unreg_none (s : BridgeState) : regStep s (.unreg none) = s := by
  simp [regStep, sync_algorithm_unregister_ue]

/-- On an initialized engine, a register call with a non-NULL context
increments `total_ue_count` modulo `2 ^ 32`. -/
theorem regStep_reg_some (s : BridgeState) (ctx : ue_context_t)
    (h : s.g_initialized = true) :
    (regStep s (.reg (some ctx))).g_status.total_ue_count =
      (s.g_status.total_ue_count + 1) % 2 ^ 32 := by
  simp [regStep, sync_algorithm_register_ue, h]

/-- On an initialized engine, an unregister call with a non-NULL id
performs the floored decrement, which over `Nat` is truncated
subtraction of one. -/
theorem regStep_unreg_some (s : BridgeState) (id : String)
    (h : s.g_initialized = true) :
    (regStep s (.unreg (some id))).g_status.total_ue_count =
      s.g_status.total_ue_count - 1 := by
  simp only [regStep, sync_algorithm_unregister_ue, h]
  by_cases hc : s.g_status.total_ue_count > 0 <;> simp [hc] <;> omega

/-- On an initialized engine, a register or unregister call leaves every
status field other than `total_ue_count` unchanged. -/
theorem regStep_other_fields (s : BridgeState) (op : RegOp) :
    (regStep s op).g_status.total_handover_count =
        s.g_status.total_handover_count ∧
      (regStep s op).g_status.successful_handover_count =
        s.g_status.successful_handover_count := by
  cases op with
  | reg c =>
    cases c with
    | none => simp [regStep, sync_algorithm_register_ue]
    | some ctx =>
      by_cases h : s.g_initialized <;>
        simp [regStep, sync_algorithm_register_ue, h]
  | unreg i =>
    cases i with
    | none => simp [regStep, sync_algorithm_unregister_ue]
    | some id =>
      by_cases h : s.g_initialized <;>
        simp [regStep, sync_algorithm_unregister_ue, h]

/-- Conservation of the subscriber count along a register/unregister
trace on an initialized engine, provided no unregister call hits a zero
count and the `uint32_t` counter never wraps: final count plus the
successful unregisters equals initial count plus the successful
registers. -/
theorem runRegOps_count (ops : List RegOp) :
    ∀ s : BridgeState, s.g_initialized = true →
      noUnderflow ops s = true →
      s.g_status.total_ue_count + numSuccRegs ops < 2 ^ 32 →
      (runRegOps ops s).g_status.total_ue_count + numSuccUnregs ops =
        s.g_status.total_ue_count + numSuccRegs ops := by
  induction ops with
  | nil =>
    intro s _ _ _
    simp [runRegOps, numSuccRegs, numSuccUnregs]
  | cons op rest ih =>
    intro s hI hN hB
    have hrun : runRegOps (op :: rest) s = runRegOps rest (regStep s op) := rfl
    have hI2 : (regStep s op).g_initialized = true := by
      rw [regStep_g_initialized]; exact hI
    cases op with
    | reg c =>
      cases c with
      | none =>
        have hRegs : numSuccRegs (RegOp.reg none :: rest) = numSuccRegs rest := by
          simp [numSuccRegs]
        have hUnregs :
            numSuccUnregs (RegOp.reg none :: rest) = numSuccUnregs rest := by
          simp [numSuccUnregs]
        have hN2 : noUnderflow rest (regStep s (.reg none)) = true := by
          simp only [noUnderflow, Bool.and_eq_true] at hN
          exact hN.2
        rw [regStep_reg_none] at hN2
        rw [hRegs] at hB
        rw [hrun, regStep_reg_none, hRegs, hUnregs]
        exact ih s hI hN2 hB
      | some ctx =>
        have hRegs :
            numSuccRegs (RegOp.reg (some ctx) :: rest) = numSuccRegs rest + 1 := by
          simp [numSuccRegs, List.filter_cons]
        have hUnregs :
            numSuccUnregs (RegOp.reg (some ctx) :: rest) = numSuccUnregs rest := by
          simp [numSuccUnregs, List.filter_cons]
        have hN2 : noUnderflow rest (regStep s (.reg (some ctx))) = true := by
          simp only [noUnderflow, Bool.and_eq_true] at hN
          exact hN.2
        rw [hRegs] at hB
        have hlt : s.g_status.total_ue_count + 1 < 2 ^ 32 := by omega
        have hcnt := regStep_reg_some s ctx hI
        rw [Nat.mod_eq_of_lt hlt] at hcnt
        have hB2 :
            (regStep s (.reg (some ctx))).g_status.total_ue_count +
              numSuccRegs rest < 2 ^ 32 := by
          rw [hcnt]; omega
        have hrec := ih (regStep s (.reg (some ctx))) hI2 hN2 hB2
        rw [hrun, hRegs, hUnregs]
        omega
    | unreg i =>
      cases i with
      | none =>
        have hRegs :
            numSuccRegs (RegOp.unreg none :: rest) = numSuccRegs rest := by
          simp [numSuccRegs]
        have hUnregs :
            numSuccUnregs (RegOp.unreg none :: rest) = numSuccUnregs rest := by
          simp [numSuccUnregs]
        have hN2 : noUnderflow rest (regStep s (.unreg none)) = true := by
          simp only [noUnderflow, Bool.and_eq_true] at hN
          exact hN.2
        rw [regStep_unreg_none] at hN2
        rw [hRegs] at hB
        rw [hrun, regStep_unreg_none, hRegs, hUnregs]
        exact ih s hI hN2 hB
      | some id =>
        have hRegs :
            numSuccRegs (RegOp.unreg (some id) :: rest) = numSuccRegs rest := by
          simp [numSuccRegs, List.filter_cons]
        have hUnregs :
            numSuccUnregs (RegOp.unreg (some id) :: rest) =
              numSuccUnregs rest + 1 := by
          simp [numSuccUnregs, List.filter_cons]
        obtain ⟨hpos, hN2⟩ : 0 < s.g_status.total_ue_count ∧
            noUnderflow rest (regStep s (.unreg (some id))) = true := by
          simp only [noUnderflow, Bool.and_eq_true, decide_eq_true_eq] at hN
          exact hN
        have hcnt := regStep_unreg_some s id hI
        rw [hRegs] at hB
        have hB2 :
            (regStep s (.unreg (some id))).g_status.total_ue_count +
              numSuccRegs rest < 2 ^ 32 := by
          rw [hcnt]; omega
        have hrec := ih (regStep s (.unreg (some id))) hI2 hN2 hB2
        rw [hrun, hRegs, hUnregs]
        omega

/-! ## Concrete states used by witnesses and counterexamples -/

/-- An initialized engine with nonzero counters, to exhibit that the
operations below do not reset them. -/
def busyState : BridgeState :=
  { g_initialized := true
    g_status :=
      { algorithm_running := true
        total_ue_count := 5
        active_handover_count := 0
        last_update_time := 9
        total_handover_count := 7
        successful_handover_count := 3
        average_handover_latency := 0 } }

/-- The engine state right after a first `sync_algorithm_init` at time 0. -/
def initState : BridgeState := (sync_algorithm_init 0 bootState).2

/-- The bridge state after the §8 scenario: fresh engine, register
`ue1`, trigger a handover of `ue-1` to `sat-B` at predicted time `T`
(`t0`, `t1` are the values of `time(NULL)` at the two calls). -/
def scenarioState (T : Rat) (t0 t1 : Int) : BridgeState :=
  (sync_algorithm_trigger_handover (some "ue-1") (some "sat-B") T t1
    (sync_algorithm_register_ue (some ue1)
      (sync_algorithm_init t0 bootState).2).2).2

/-- Upsert sequence exercising the C3 uniqueness claim: `ue-1` twice with
an unrelated `ue-2` upsert in between. -/
def demoCalls : List UpsertCall :=
  [{ ue_id := "ue-1", gnb_ip := 1, gnb_port := 1, now := 0 },
   { ue_id := "ue-2", gnb_ip := 2, gnb_port := 2, now := 1 },
   { ue_id := "ue-1", gnb_ip := 3, gnb_port := 3, now := 2 }]

/-- Register/unregister trace exercising the C8 conservation claim. -/
def c8ops : List RegOp :=
  [.reg (some ue1), .reg (some ue1), .unreg (some "ue-1")]

/-! ## Claims -/

/-- C1, counterexample: on a freshly initialized engine on which no
subscriber was ever registered, `sync_algorithm_trigger_handover` with
non-NULL ids returns `SYNC_SUCCESS` — not `SYNC_ERROR_UE_NOT_FOUND` —
and increments both `total_handover_count` and
`successful_handover_count` from 0 to 1. -/
theorem claim_c1_counterexample :
    (sync_algorithm_trigger_handover (some "ue-x") (some "sat-B") 5 1
        initState).1 = .success ∧
    SyncResult.success ≠ SyncResult.errorUeNotFound ∧
    (sync_algorithm_trigger_handover (some "ue-x") (some "sat-B") 5 1
        initState).2.g_status.total_handover_count = 1 ∧
    (sync_algorithm_trigger_handover (some "ue-x") (some "sat-B") 5 1
        initState).2.g_status.successful_handover_count = 1 ∧
    initState.g_status.total_handover_count = 0 ∧
    initState.g_status.successful_handover_count = 0 := by
  decide

/-- C1, amended: `sync_algorithm_trigger_handover` never looks the
subscriber up.  On an initialized engine, for any non-NULL subscriber and
target-satellite ids (registered or not) it returns `SYNC_SUCCESS` and
increments both handover counters by one (modulo `2 ^ 64`), leaving the
subscriber count unchanged. -/
theorem claim_c1_amended (s : BridgeState) (ue_id target : String) (T : Rat)
    (now : Int) (h : s.g_initialized = true) :
    (sync_algorithm_trigger_handover (some ue_id) (some target) T now s).1 =
      .success ∧
    (sync_algorithm_trigger_handover (some ue_id) (some target) T now
        s).2.g_status.total_handover_count =
      (s.g_status.total_handover_count + 1) % 2 ^ 64 ∧
    (sync_algorithm_trigger_handover (some ue_id) (some target) T now
        s).2.g_status.successful_handover_count =
      (s.g_status.successful_handover_count + 1) % 2 ^ 64 ∧
    (sync_algorithm_trigger_handover (some ue_id) (some target) T now
        s).2.g_status.total_ue_count = s.g_status.total_ue_count := by
  simp [sync_algorithm_trigger_handover, h]

/-- Witness for C1 amended, at the concrete `busyState`. -/
theorem claim_c1_amended_witness :
    (sync_algorithm_trigger_handover (some "ue-x") (some "sat-B") 5 1
        busyState).1 = .success ∧
    (sync_algorithm_trigger_handover (some "ue-x") (some "sat-B") 5 1
        busyState).2.g_status.total_handover_count =
      (busyState.g_status.total_handover_count + 1) % 2 ^ 64 ∧
    (sync_algorithm_trigger_handover (some "ue-x") (some "sat-B") 5 1
        busyState).2.g_status.successful_handover_count =
      (busyState.g_status.successful_handover_count + 1) % 2 ^ 64 ∧
    (sync_algorithm_trigger_handover (some "ue-x") (some "sat-B") 5 1
        busyState).2.g_status.total_ue_count =
      busyState.g_status.total_ue_count :=
  claim_c1_amended busyState "ue-x" "sat-B" 5 1 rfl

/-- C4: `sync_algorithm_init` is idempotent.  Any two consecutive calls
both return `SYNC_SUCCESS`, the second call leaves the state exactly as
the first left it, and a call on an already-initialized engine returns
`SYNC_SUCCESS` with the state (hence every counter) unchanged. -/
theorem claim_c4 (s : BridgeState) (n1 n2 : Int) :
    (sync_algorithm_init n1 s).1 = .success ∧
    (sync_algorithm_init n2 (sync_algorithm_init n1 s).2).1 = .success ∧
    (sync_algorithm_init n2 (sync_algorithm_init n1 s).2).2 =
      (sync_algorithm_init n1 s).2 ∧
    (s.g_initialized = true → sync_algorithm_init n1 s = (.success, s)) := by
  by_cases h : s.g_initialized <;> simp [sync_algorithm_init, h]

/-- Witness for C4 at the concrete `busyState` (nonzero counters survive
the repeated call). -/
theorem claim_c4_witness :
    sync_algorithm_init 0 busyState = (.success, busyState) :=
  (claim_c4 busyState 0 0).2.2.2 rfl

/-- C6, counterexample: `sync_algorithm_set_parameters (-1.0) 0.01`
returns `SYNC_SUCCESS`, not `SYNC_ERROR_INVALID_PARAM`: the function
performs no validation at all. -/
theorem claim_c6_counterexample :
    (sync_algorithm_set_parameters (-1) (1 / 100) busyState).1 = .success ∧
    SyncResult.success ≠ SyncResult.errorInvalidParam := by
  exact ⟨rfl, by decide⟩

/-- C6, amended: `sync_algorithm_set_parameters` neither validates nor
stores anything: for every pair of arguments (positive or not) it
returns `SYNC_SUCCESS` and leaves the engine state unchanged. -/
theorem claim_c6_amended (delta_t binary_search_precision : Rat)
    (s : BridgeState) :
    sync_algorithm_set_parameters delta_t binary_search_precision s =
      (.success, s) :=
  rfl

/-- C7, counterexample: `update_routing_entry` with the empty (but
non-NULL) identifier returns `SYNC_SUCCESS` and inserts an entry with the
empty key — it does not fail with `SYNC_ERROR_INVALID_PARAM`. -/
theorem claim_c7_counterexample :
    update_routing_entry (some "") 1 2 3 [] =
      (.success, [{ ue_id := "", gnb_ip := 1, gnb_port := 2,
                    last_update := 3 }]) ∧
    SyncResult.success ≠ SyncResult.errorInvalidParam := by
  decide

/-- C7, amended: `update_routing_entry` fails with
`SYNC_ERROR_INVALID_PARAM` (leaving the table unchanged) exactly for the
NULL identifier; every non-NULL identifier, the empty string included,
succeeds. -/
theorem claim_c7_amended (ip port : Nat) (now : Int)
    (t : List routing_entry_t) (id : String) :
    update_routing_entry none ip port now t = (.errorInvalidParam, t) ∧
    (update_routing_entry (some id) ip port now t).1 = .success := by
  constructor
  · rfl
  · unfold update_routing_entry
    cases hscan : updateScan id ip port now t <;> simp [hscan]

/-- C10: after `sync_algorithm_cleanup`, a new `sync_algorithm_init`
succeeds and resets the whole status: both handover counters and the
subscriber count become 0 and the running flag false — counters from
before the cleanup are not preserved. -/
theorem claim_c10 (s : BridgeState) (now : Int) :
    (sync_algorithm_init now (sync_algorithm_cleanup s)).1 = .success ∧
    (sync_algorithm_init now (sync_algorithm_cleanup s)).2.g_initialized =
      true ∧
    (sync_algorithm_init now
        (sync_algorithm_cleanup s)).2.g_status.total_ue_count = 0 ∧
    (sync_algorithm_init now
        (sync_algorithm_cleanup s)).2.g_status.total_handover_count = 0 ∧
    (sync_algorithm_init now
        (sync_algorithm_cleanup s)).2.g_status.successful_handover_count = 0 ∧
    (sync_algorithm_init now
        (sync_algorithm_cleanup s)).2.g_status.algorithm_running = false := by
  simp [sync_algorithm_init, sync_algorithm_cleanup, zeroStatus]

/-- C2, counterexample: after initialize / register `ue-1` on `sat-A` /
trigger handover to `sat-B`, `sync_algorithm_get_recent_handover_events 1`
reports 0 events and writes none — not the one `ue-1` event the claim
expects. -/
theorem claim_c2_counterexample :
    (sync_algorithm_get_recent_handover_events 1 true
        (scenarioState 5 0 1)).2.1 = some 0 ∧
    (sync_algorithm_get_recent_handover_events 1 true
        (scenarioState 5 0 1)).2.2 = ([] : List handover_event_t) ∧
    (some 0 : Option Nat) ≠ some 1 := by
  decide

/-- C2, amended: in the scenario initialize; register `ue-1` (current
satellite `sat-A`); trigger handover of `ue-1` to `sat-B` at predicted
time `T`, every call returns `SYNC_SUCCESS` and `get_status` then reports
`total_ue_count = 1`, `total_handover_count = 1`,
`successful_handover_count = 1`; but `get_recent_handover_events 1`
returns `SYNC_SUCCESS` with zero events (the event log is not
implemented), not one `ue-1` event. -/
theorem claim_c2_amended (T : Rat) (t0 t1 : Int) :
    (sync_algorithm_init t0 bootState).1 = .success ∧
    (sync_algorithm_register_ue (some ue1)
        (sync_algorithm_init t0 bootState).2).1 = .success ∧
    (sync_algorithm_trigger_handover (some "ue-1") (some "sat-B") T t1
        (sync_algorithm_register_ue (some ue1)
          (sync_algorithm_init t0 bootState).2).2).1 = .success ∧
    (sync_algorithm_get_status true (scenarioState T t0 t1)).1 = .success ∧
    ((sync_algorithm_get_status true (scenarioState T t0 t1)).2).map
        (fun st => (st.total_ue_count, st.total_handover_count,
          st.successful_handover_count)) = some (1, 1, 1) ∧
    sync_algorithm_get_recent_handover_events 1 true (scenarioState T t0 t1) =
      (.success, some 0, ([] : List handover_event_t)) := by
  refine ⟨rfl, rfl, rfl, rfl, rfl, rfl⟩

/-- C3, counterexample: identifiers are silently truncated to 63
characters, so upserting the same 64-character identifier twice yields a
table with two entries carrying identical stored keys: the uniqueness
invariant fails and the table does not hold exactly one entry for the
upserted identifier. -/
theorem claim_c3_counterexample :
    ueKeyCount (String.mk (List.replicate 64 'a'))
        (applyUpserts
          [{ ue_id := String.mk (List.replicate 64 'a'), gnb_ip := 1,
             gnb_port := 2, now := 3 },
           { ue_id := String.mk (List.replicate 64 'a'), gnb_ip := 4,
             gnb_port := 5, now := 6 }] []) ≠ 1 ∧
    ¬ (tableKeys
        (applyUpserts
          [{ ue_id := String.mk (List.replicate 64 'a'), gnb_ip := 1,
             gnb_port := 2, now := 3 },
           { ue_id := String.mk (List.replicate 64 'a'), gnb_ip := 4,
             gnb_port := 5, now := 6 }] [])).Nodup := by
  decide

/-- C3, amended: for every sequence of upsert calls whose identifiers all
fit the 64-byte buffer (length at most 63, so `strncpy` does not
truncate), the table built from empty never contains two entries with the
same stored identifier, and it holds exactly one entry for an identifier
exactly when some call used it. -/
theorem claim_c3_amended (calls : List UpsertCall) (id : String)
    (h : ∀ c ∈ calls, c.ue_id.length ≤ 63) :
    (tableKeys (applyUpserts calls [])).Nodup ∧
    ueKeyCount id (applyUpserts calls []) =
      if id ∈ calls.map (fun c => c.ue_id) then 1 else 0 := by
  have hnd : (tableKeys (applyUpserts calls [])).Nodup :=
    applyUpserts_keys_nodup calls h [] (by simp [tableKeys])
  refine ⟨hnd, ?_⟩
  have hmem := applyUpserts_keys_mem calls h [] id
  simp only [tableKeys, List.map_nil, List.not_mem_nil, or_false] at hmem
  by_cases hin : id ∈ calls.map (fun c => c.ue_id)
  · rw [if_pos hin]
    exact List.count_eq_one_of_mem hnd (hmem.mpr hin)
  · rw [if_neg hin]
    exact List.count_eq_zero_of_not_mem (fun hc => hin (hmem.mp hc))

/-- Witness for C3 amended at the concrete `demoCalls` sequence
(`ue-1` upserted twice around an unrelated `ue-2` upsert). -/
theorem claim_c3_amended_witness :
    (tableKeys (applyUpserts demoCalls [])).Nodup ∧
    ueKeyCount "ue-1" (applyUpserts demoCalls []) = 1 := by
  have h := claim_c3_amended demoCalls "ue-1" (by decide)
  refine ⟨h.1, ?_⟩
  rw [h.2]
  decide

/-- C5, counterexample: on the uninitialized engine, register fails with
`SYNC_ERROR_INVALID_PARAM` (value -1) — `sync_result_t` defines no
`NotInitialized` kind at all, and the returned kind is the same one used
for bad arguments. -/
theorem claim_c5_counterexample :
    (sync_algorithm_register_ue (some ue1) bootState).1 =
      .errorInvalidParam ∧
    SyncResult.code .errorInvalidParam = -1 ∧
    SyncResult.errorInvalidParam ≠ SyncResult.success := by
  decide

/-- C5, amended: every operational method that checks the lifecycle
(register, unregister, position update, trigger handover, get status,
start/stop periodic update) fails on an engine that is uninitialized —
or was shut down by `sync_algorithm_cleanup` — with
`SYNC_ERROR_INVALID_PARAM` (there is no dedicated `NotInitialized`
kind), leaving the state unchanged. -/
theorem claim_c5_amended (s s2 : BridgeState) (ctx : ue_context_t)
    (id tgt : String) (T lat lon alt : Rat) (now : Int)
    (h : s.g_initialized = false) :
    sync_algorithm_register_ue (some ctx) s = (.errorInvalidParam, s) ∧
    sync_algorithm_unregister_ue (some id) s = (.errorInvalidParam, s) ∧
    sync_algorithm_update_ue_position (some id) lat lon alt s =
      (.errorInvalidParam, s) ∧
    sync_algorithm_trigger_handover (some id) (some tgt) T now s =
      (.errorInvalidParam, s) ∧
    sync_algorithm_get_status true s = (.errorInvalidParam, none) ∧
    sync_algorithm_start_periodic_update s = (.errorInvalidParam, s) ∧
    sync_algorithm_stop_periodic_update s = (.errorInvalidParam, s) ∧
    (sync_algorithm_cleanup s2).g_initialized = false := by
  refine ⟨?_, ?_, ?_, ?_, ?_, ?_, ?_, rfl⟩ <;>
    simp [sync_algorithm_register_ue, sync_algorithm_unregister_ue,
      sync_algorithm_update_ue_position, sync_algorithm_trigger_handover,
      sync_algorithm_get_status, sync_algorithm_start_periodic_update,
      sync_algorithm_stop_periodic_update, h]

/-- Witness for C5 amended on the concrete uninitialized `bootState`. -/
theorem claim_c5_amended_witness :
    sync_algorithm_register_ue (some ue1) bootState =
      (.errorInvalidParam, bootState) ∧
    sync_algorithm_trigger_handover (some "ue-1") (some "sat-B") 0 1
        bootState = (.errorInvalidParam, bootState) :=
  ⟨(claim_c5_amended bootState bootState ue1 "ue-1" "sat-B" 0 0 0 0 1
      rfl).1,
   (claim_c5_amended bootState bootState ue1 "ue-1" "sat-B" 0 0 0 0 1
      rfl).2.2.2.1⟩

/-- C8, counterexample: on a freshly initialized engine, unregister of a
never-registered id returns `SYNC_SUCCESS` without decrementing (floor at
zero), so after one successful unregister call and one successful
register call the count is 1, while the net of successful registers
minus successful unregisters is 1 - 1 = 0. -/
theorem claim_c8_counterexample :
    (sync_algorithm_unregister_ue (some "ue-1") initState).1 = .success ∧
    (sync_algorithm_register_ue (some ue1)
        (sync_algorithm_unregister_ue (some "ue-1") initState).2).1 =
      .success ∧
    (sync_algorithm_register_ue (some ue1)
        (sync_algorithm_unregister_ue (some "ue-1")
          initState).2).2.g_status.total_ue_count = 1 ∧
    ((1 : Int) ≠ 1 - 1) := by
  decide

/-- C8, amended: `total_ue_count` is a `uint32_t`, hence never negative,
and unregister performs the floored decrement (truncated subtraction of
one over `Nat`).  The count equals the net of successful register minus
unregister calls only under the proviso that every unregister happens
while the count is positive (and the counter does not wrap): then final
count + successful unregisters = initial count + successful registers. -/
theorem claim_c8_amended (ops : List RegOp) (s : BridgeState) (id : String)
    (s2 : BridgeState) (hI : s.g_initialized = true)
    (hN : noUnderflow ops s = true)
    (hB : s.g_status.total_ue_count + numSuccRegs ops < 2 ^ 32)
    (h2 : s2.g_initialized = true) :
    (runRegOps ops s).g_status.total_ue_count + numSuccUnregs ops =
      s.g_status.total_ue_count + numSuccRegs ops ∧
    (sync_algorithm_unregister_ue (some id) s2).2.g_status.total_ue_count =
      s2.g_status.total_ue_count - 1 := by
  refine ⟨runRegOps_count ops s hI hN hB, ?_⟩
  exact regStep_unreg_some s2 id h2

/-- Witness for C8 amended: trace register, register, unregister from the
freshly initialized engine, plus a floored unregister on `busyState`. -/
theorem claim_c8_amended_witness :
    (runRegOps c8ops initState).g_status.total_ue_count +
        numSuccUnregs c8ops =
      initState.g_status.total_ue_count + numSuccRegs c8ops ∧
    (sync_algorithm_unregister_ue (some "ue-9")
        busyState).2.g_status.total_ue_count =
      busyState.g_status.total_ue_count - 1 :=
  claim_c8_amended c8ops initState "ue-9" busyState rfl (by decide)
    (by decide) rfl

/-- C9, counterexample: with identifiers longer than 63 characters the
frame property fails.  A table holding one entry for the 63-character
identifier `a^63` is observably changed for that key by an upsert of the
distinct 64-character identifier `a^64`: truncation inserts a second
entry whose stored key is again `a^63`, ahead of the old one. -/
theorem claim_c9_counterexample :
    String.mk (List.replicate 63 'a') ≠ String.mk (List.replicate 64 'a') ∧
    ((update_routing_entry (some (String.mk (List.replicate 64 'a'))) 9 9 5
          [{ ue_id := String.mk (List.replicate 63 'a'), gnb_ip := 1,
             gnb_port := 1, last_update := 0 }]).2).filter
        (fun e => e.ue_id = String.mk (List.replicate 63 'a')) ≠
      ([{ ue_id := String.mk (List.replicate 63 'a'), gnb_ip := 1,
          gnb_port := 1, last_update := 0 }] :
        List routing_entry_t).filter
        (fun e => e.ue_id = String.mk (List.replicate 63 'a')) := by
  decide

/-- C9, amended: for identifiers that fit the buffer (length at most 63),
upsert has the frame property: every entry whose stored identifier
differs from the argument is left exactly as it was (endpoint, timestamp
and position), so only the entry for the given identifier is created or
overwritten. -/
theorem claim_c9_amended (t : List routing_entry_t) (id : String)
    (ip port : Nat) (now : Int) (h : id.length ≤ 63) :
    ((update_routing_entry (some id) ip port now t).2).filter
        (fun e => e.ue_id ≠ id) =
      t.filter (fun e => e.ue_id ≠ id) := by
  cases hscan : updateScan id ip port now t with
  | some t2 =>
    unfold update_routing_entry
    simp only [hscan]
    exact updateScan_some_filter id ip port now t t2 hscan
  | none =>
    unfold update_routing_entry
    simp only [hscan]
    simp [List.filter_cons, strncpyUeId_of_short id h]

/-- Witness for C9 amended at a concrete one-entry table. -/
theorem claim_c9_amended_witness :
    ((update_routing_entry (some "ue-1") 1 2 3
          [{ ue_id := "ue-2", gnb_ip := 7, gnb_port := 8,
             last_update := 9 }]).2).filter
        (fun e => e.ue_id ≠ "ue-1") =
      ([{ ue_id := "ue-2", gnb_ip := 7, gnb_port := 8,
          last_update := 9 }] : List routing_entry_t).filter
        (fun e => e.ue_id ≠ "ue-1") :=
  claim_c9_amended
    [{ ue_id := "ue-2", gnb_ip := 7, gnb_port := 8, last_update := 9 }]
    "ue-1" 1 2 3 (by decide)

end NtnStack
